import Mathlib

/-!
Shallow embedding of the Identity & Access Core of the xRAAS frontend
(`src/frontend/src/auth/RBACProvider.tsx`, `AuthProvider.tsx`,
`TenantProvider.tsx`, and the shared type definitions), together with
theorems settling the specification claims about role-based access
control, the authentication session state machine, and tenant context
management.

Conventions of the embedding:
- TypeScript string enums (`Role`, `Permission`) become Lean inductives;
  JavaScript-level lookups by arbitrary string are modelled separately
  where a claim is about out-of-enum inputs.
- `Date` values are modelled as integer milliseconds since the epoch.
- React `useState` / `useReducer` state becomes explicit state records;
  each provider operation becomes a pure state-transformer, parameterised
  by the outcome of the external collaborator call it awaits.
- JavaScript closure capture matters: inside `deleteTenant` the nested
  call to `switchTenant` reads the `availableTenants` value captured at
  render time (the pre-delete list), which the embedding reproduces by
  passing that list explicitly.
-/

namespace XRaas

/-- The `Role` enum of `src/unnamed/part_002` (auth types), in source
declaration order: OWNER, ADMIN, ANALYST, DEVELOPER, VIEWER, PARTNER. -/
inductive Role where
  | owner
  | admin
  | analyst
  | developer
  | viewer
  | partner
deriving DecidableEq

/-- The `Permission` enum of `src/unnamed/part_002` (auth types). -/
inductive Permission where
  | manageUsers
  | viewUsers
  | manageTenant
  | switchTenants
  | manageBilling
  | viewBilling
  | viewAnalytics
  | exportAnalytics
  | manageCompliance
  | viewCompliance
  | uploadEvidence
  | manageRulesets
  | viewRulesets
  | promoteRulesets
  | viewAudit
  | exportAudit
  | managePartners
  | viewPartners
  | submitRulesets
  | manageApiKeys
  | manageWebhooks
  | manageFeatureFlags
deriving DecidableEq, Fintype

/-- The `roleHierarchy` record of `RBACProvider.tsx` (lines 13-20):
for each role, the list of roles it inherits permissions from. -/
def roleHierarchy : Role → List Role
  | .owner => [.admin, .analyst, .developer, .viewer, .partner]
  | .admin => [.analyst, .developer, .viewer, .partner]
  | .analyst => [.viewer]
  | .developer => [.viewer]
  | .viewer => []
  | .partner => [.viewer]

/-- The `rolePermissions` record of `RBACProvider.tsx` (lines 23-102):
the permissions directly granted to each role. -/
def rolePermissions : Role → List Permission
  | .owner =>
    [.manageUsers, .viewUsers, .manageTenant, .switchTenants,
     .manageBilling, .viewBilling, .viewAnalytics, .exportAnalytics,
     .manageCompliance, .viewCompliance, .uploadEvidence,
     .manageRulesets, .viewRulesets, .promoteRulesets,
     .viewAudit, .exportAudit, .managePartners, .viewPartners,
     .submitRulesets, .manageApiKeys, .manageWebhooks,
     .manageFeatureFlags]
  | .admin =>
    [.manageUsers, .viewUsers, .manageTenant, .switchTenants,
     .manageBilling, .viewBilling, .viewAnalytics, .exportAnalytics,
     .manageCompliance, .viewCompliance, .uploadEvidence,
     .manageRulesets, .viewRulesets, .promoteRulesets,
     .viewAudit, .exportAudit, .viewPartners, .manageApiKeys,
     .manageWebhooks]
  | .analyst =>
    [.viewUsers, .viewBilling, .viewAnalytics, .exportAnalytics,
     .viewCompliance, .uploadEvidence, .viewRulesets,
     .viewAudit, .exportAudit, .viewPartners]
  | .developer =>
    [.viewUsers, .viewAnalytics, .viewRulesets, .promoteRulesets,
     .viewAudit, .manageApiKeys, .manageWebhooks]
  | .viewer =>
    [.viewAnalytics, .viewCompliance, .viewRulesets, .viewAudit]
  | .partner =>
    [.viewAnalytics, .viewRulesets, .submitRulesets, .viewAudit]

/-- The `getUserPermissions` function of `RBACProvider.tsx`
(lines 115-124): direct permissions of the role, followed by the
permissions of each role in its `roleHierarchy` entry, deduplicated
keeping first occurrences (the JS `[...new Set([...a, ...b])]`). -/
def getUserPermissions (userRole : Role) : List Permission :=
  let directPermissions := rolePermissions userRole
  let inheritedRoles := roleHierarchy userRole
  let inheritedPermissions := inheritedRoles.flatMap rolePermissions
  (directPermissions ++ inheritedPermissions).eraseDups

/-- The position of a role in `Object.values(Role)`: the enum member
declaration order of the `Role` enum. -/
def roleIndex : Role → Nat
  | .owner => 0
  | .admin => 1
  | .analyst => 2
  | .developer => 3
  | .viewer => 4
  | .partner => 5

/-- The `hasRole` closure of `RBACProvider.tsx` (lines 133-138): it
compares positions in `Object.values(Role)` and returns
`userRoleIndex <= requiredRoleIndex`. -/
def hasRole (userRole requiredRole : Role) : Bool :=
  decide (roleIndex userRole ≤ roleIndex requiredRole)

/-- Reachability in the role-hierarchy closure: `Inherits r b` holds when
role `b` is reachable from role `r` by following `roleHierarchy` edges
one or more times. -/
inductive Inherits : Role → Role → Prop where
  | direct {r b : Role} : b ∈ roleHierarchy r → Inherits r b
  | trans {r m b : Role} : Inherits r m → Inherits m b → Inherits r b

/-- The `roleHierarchy` table is transitively closed: a hierarchy edge
followed by a hierarchy edge is again a hierarchy edge. -/
theorem roleHierarchy_trans (r m b : Role) (hm : m ∈ roleHierarchy r)
    (hb : b ∈ roleHierarchy m) : b ∈ roleHierarchy r := by
  cases r <;> cases m <;> cases b <;> revert hm hb <;> decide

/-- Closure reachability coincides with direct membership in the
(transitively closed) `roleHierarchy` table. -/
theorem inherits_mem (r b : Role) (h : Inherits r b) :
    b ∈ roleHierarchy r := by
  induction h with
  | direct h => exact h
  | trans _ _ ih1 ih2 => exact roleHierarchy_trans _ _ _ ih1 ih2

/-- Every direct hierarchy edge gives containment of the inherited
role's direct permissions in the resolved permission set. -/
theorem mem_getUserPermissions_of_edge (r b : Role) :
    b ∈ roleHierarchy r → ∀ p ∈ rolePermissions b,
      p ∈ getUserPermissions r := by
  cases r <;> cases b <;> decide

/-- The subscription tiers of the `Tenant` interface
(`src/unnamed/part_002`). -/
inductive SubscriptionTier where
  | starter
  | professional
  | enterprise
  | missionCritical
deriving DecidableEq

/-- The tenant status values of the `Tenant` interface
(`src/unnamed/part_002`): active, suspended, cancelled. -/
inductive TenantStatus where
  | active
  | suspended
  | cancelled
deriving DecidableEq

/-- The `Tenant` interface of `src/unnamed/part_002`. Dates are integer
milliseconds since the epoch. -/
structure Tenant where
  id : String
  name : String
  slug : String
  domain : Option String
  subscriptionTier : SubscriptionTier
  status : TenantStatus
  createdAt : Int
  updatedAt : Int
deriving DecidableEq

/-- The mutable state of `TenantProvider.tsx`: the `currentTenant` and
`availableTenants` useState hooks. -/
structure TenantState where
  currentTenant : Option Tenant
  availableTenants : List Tenant
deriving DecidableEq

/-- Core of the `switchTenant` closure of `TenantProvider.tsx`
(lines 49-68), on the success path of the backend call: look up
`tenantId` in the captured `availableTenants` list; if absent, throw
the error string and leave the state untouched; otherwise set
`currentTenant` to the found tenant. The captured list is passed
explicitly because `deleteTenant` invokes this closure with the
pre-delete render's list. (The `session.tenant` mutation is part of the
auth session, outside `TenantState`.) -/
def switchTenantOn (available : List Tenant) (tenantId : String)
    (st : TenantState) : TenantState × Except String Unit :=
  match available.find? (fun t => t.id == tenantId) with
  | none => (st, .error "Tenant not found")
  | some t => ({ st with currentTenant := some t }, .ok ())

/-- The `switchTenant` operation as called from outside: the captured
list is the state's own `availableTenants`. -/
def switchTenant (tenantId : String) (st : TenantState) :
    TenantState × Except String Unit :=
  switchTenantOn st.availableTenants tenantId st

/-- The `createTenant` closure of `TenantProvider.tsx` (lines 70-79),
parameterised by the result of `tenantService.createTenant`: on success
append the returned tenant to `availableTenants` and return it; on
failure rethrow, leaving the state untouched. -/
def createTenant (result : Except String Tenant) (st : TenantState) :
    TenantState × Except String Tenant :=
  match result with
  | .ok newTenant =>
    ({ st with availableTenants := st.availableTenants ++ [newTenant] },
     .ok newTenant)
  | .error e => (st, .error e)

/-- The `deleteTenant` closure of `TenantProvider.tsx` (lines 100-117),
on the success path of `tenantService.deleteTenant`: filter the deleted
id out of `availableTenants`; then, when the current tenant has the
deleted id AND the pre-delete list had length > 1, switch to the first
remaining tenant — where the nested `switchTenant` call reads the
pre-delete list captured by the closure. -/
def deleteTenant (tenantId : String) (st : TenantState) :
    TenantState × Except String Unit :=
  let stale := st.availableTenants
  let st1 : TenantState :=
    { st with availableTenants := stale.filter (fun t => t.id != tenantId) }
  if (st.currentTenant.map Tenant.id = some tenantId) ∧ stale.length > 1 then
    match stale.filter (fun t => t.id != tenantId) with
    | [] => (st1, .ok ())
    | r :: _ => switchTenantOn stale r.id st1
  else
    (st1, .ok ())

/-- The `User` interface of `src/unnamed/part_002`. Dates are integer
milliseconds since the epoch. -/
structure User where
  id : String
  email : String
  name : String
  avatar : Option String
  role : Role
  permissions : List Permission
  tenantId : String
  lastLogin : Option Int
  isActive : Bool
  createdAt : Int
  updatedAt : Int
deriving DecidableEq

/-- The `Session` interface of `src/unnamed/part_002`:
user, tenant, token, expiry, and the denormalized permission list. -/
structure Session where
  user : User
  tenant : Tenant
  token : String
  expiresAt : Int
  permissions : List Permission
deriving DecidableEq

/-- The `AuthState` interface of `src/unnamed/part_002`, as held by the
`useReducer` hook in `AuthProvider.tsx`; `null` becomes `none`. -/
structure AuthState where
  isAuthenticated : Bool
  isLoading : Bool
  user : Option User
  session : Option Session
  error : Option String
deriving DecidableEq

/-- The `AuthAction` union of `AuthProvider.tsx` (lines 29-35). -/
inductive AuthAction where
  | authStart
  | authSuccess (user : User) (session : Session)
  | authFailure (message : String)
  | authLogout
  | updateUser (user : User)
  | clearError

/-- The `initialState` constant of `AuthProvider.tsx` (lines 20-26). -/
def initialState : AuthState :=
  { isAuthenticated := false
    isLoading := true
    user := none
    session := none
    error := none }

/-- The `authReducer` function of `AuthProvider.tsx` (lines 38-88). -/
def authReducer (state : AuthState) (action : AuthAction) : AuthState :=
  match action with
  | .authStart => { state with isLoading := true, error := none }
  | .authSuccess u sess =>
    { state with
        isAuthenticated := true
        isLoading := false
        user := some u
        session := some sess
        error := none }
  | .authFailure msg =>
    { state with
        isAuthenticated := false
        isLoading := false
        user := none
        session := none
        error := some msg }
  | .authLogout =>
    { state with
        isAuthenticated := false
        isLoading := false
        user := none
        session := none
        error := none }
  | .updateUser u => { state with user := some u }
  | .clearError => { state with error := none }

/-- The `initializeAuth` bootstrap of `AuthProvider.tsx` (lines 98-117),
parameterised by the persisted token (`localStorage.getItem`) and by the
outcome of `authService.validateSession`: with no token, dispatch
AUTH_FAILURE with message "No session found"; with a token, dispatch
AUTH_SUCCESS carrying the validated session's user and session on
success, and AUTH_FAILURE with message "Session validation failed" on
failure. -/
def initializeAuth (token : Option String)
    (validateResult : String → Option Session) (st : AuthState) :
    AuthState :=
  match token with
  | none => authReducer st (.authFailure "No session found")
  | some t =>
    match validateResult t with
    | some session => authReducer st (.authSuccess session.user session)
    | none => authReducer st (.authFailure "Session validation failed")

/-- The `refreshSession` closure of `AuthProvider.tsx` (lines 161-174),
parameterised by the outcome of `authService.refreshSession`: with no
current session it returns immediately; on a successful backend call it
dispatches AUTH_SUCCESS with the NEW session's user and the new session;
on failure it dispatches AUTH_FAILURE with "Session refresh failed". -/
def refreshSession (refreshResult : String → Option Session)
    (st : AuthState) : AuthState :=
  match st.session with
  | none => st
  | some sess =>
    match refreshResult sess.token with
    | some newSession =>
      authReducer st (.authSuccess newSession.user newSession)
    | none => authReducer st (.authFailure "Session refresh failed")

/-- The refresh-timer delay computed by the auto-refresh effect of
`AuthProvider.tsx` (lines 120-131): the time until expiry minus a
5-minute margin, clamped at zero. Times in integer milliseconds. -/
def refreshDelay (expiresAt now : Int) : Int :=
  let timeUntilExpiry := expiresAt - now
  max (timeUntilExpiry - 5 * 60 * 1000) 0

/-- One reducer dispatch as performed by the public operations of
`AuthProvider.tsx` (`initializeAuth`, `login`, `logout`,
`refreshSession`, `updateUser`). AUTH_START, AUTH_SUCCESS, AUTH_FAILURE
and AUTH_LOGOUT are dispatched unconditionally by those operations;
UPDATE_USER is dispatched by `updateUser` only after its
`if (!state.user) return` guard, so it requires a non-null user. -/
inductive DispatchedStep : AuthState → AuthState → Prop where
  | start {s : AuthState} : DispatchedStep s (authReducer s .authStart)
  | success {s : AuthState} (u : User) (sess : Session) :
      DispatchedStep s (authReducer s (.authSuccess u sess))
  | failure {s : AuthState} (msg : String) :
      DispatchedStep s (authReducer s (.authFailure msg))
  | loggedOut {s : AuthState} :
      DispatchedStep s (authReducer s .authLogout)
  | update {s : AuthState} (u : User) (h : s.user ≠ none) :
      DispatchedStep s (authReducer s (.updateUser u))

/-- Auth states reachable from `initialState` through the dispatches of
the public operations. -/
inductive ReachableAuth : AuthState → Prop where
  | init : ReachableAuth initialState
  | step {s s' : AuthState} : ReachableAuth s → DispatchedStep s s' →
      ReachableAuth s'

/-- Decoding of a JavaScript string into the `Role` enum: the string
values of the enum members, in declaration order. A string outside the
enum decodes to `none`, mirroring the `undefined` a JS record lookup
produces for an unknown key. -/
def roleFromString (s : String) : Option Role :=
  if s = "owner" then some .owner
  else if s = "admin" then some .admin
  else if s = "analyst" then some .analyst
  else if s = "developer" then some .developer
  else if s = "viewer" then some .viewer
  else if s = "partner" then some .partner
  else none

/-- The `getUserPermissions` function of `RBACProvider.tsx` at the
JavaScript level, where the role argument is an arbitrary string keyed
into the `rolePermissions` and `roleHierarchy` records: an unknown key
yields `undefined`, which the `|| []` fallbacks turn into the empty
list. -/
def getUserPermissionsJs (userRole : String) : List Permission :=
  let directPermissions := ((roleFromString userRole).map rolePermissions).getD []
  let inheritedRoles := ((roleFromString userRole).map roleHierarchy).getD []
  let inheritedPermissions := inheritedRoles.flatMap rolePermissions
  (directPermissions ++ inheritedPermissions).eraseDups

/-- A concrete active tenant used in witnesses and counterexamples. -/
def tenantA : Tenant :=
  { id := "tenant-a", name := "Acme", slug := "acme", domain := none
    subscriptionTier := .starter, status := .active
    createdAt := 0, updatedAt := 0 }

/-- A second concrete active tenant. -/
def tenantB : Tenant :=
  { id := "tenant-b", name := "Globex", slug := "globex", domain := none
    subscriptionTier := .professional, status := .active
    createdAt := 0, updatedAt := 0 }

/-- A concrete suspended tenant. -/
def tenantSuspended : Tenant :=
  { id := "tenant-s", name := "Initech", slug := "initech", domain := none
    subscriptionTier := .enterprise, status := .suspended
    createdAt := 0, updatedAt := 0 }

/-- A tenant state whose single membership is also the active tenant. -/
def lastTenantState : TenantState :=
  { currentTenant := some tenantA, availableTenants := [tenantA] }

/-- A tenant state whose memberships include a suspended tenant. -/
def suspendedMemberState : TenantState :=
  { currentTenant := some tenantA
    availableTenants := [tenantA, tenantSuspended] }

/-- A concrete user. -/
def userA : User :=
  { id := "user-a", email := "a@acme.io", name := "Alice", avatar := none
    role := .owner, permissions := [], tenantId := "tenant-a"
    lastLogin := none, isActive := true, createdAt := 0, updatedAt := 0 }

/-- A second concrete user, distinct from the first. -/
def userB : User :=
  { id := "user-b", email := "b@acme.io", name := "Bob", avatar := none
    role := .viewer, permissions := [], tenantId := "tenant-a"
    lastLogin := none, isActive := true, createdAt := 0, updatedAt := 0 }

/-- A concrete session belonging to the first user. -/
def sessionA : Session :=
  { user := userA, tenant := tenantA, token := "tok-a"
    expiresAt := 1000000, permissions := [] }

/-- A concrete session belonging to the second user, as a refresh
backend could return it. -/
def sessionB : Session :=
  { user := userB, tenant := tenantA, token := "tok-b"
    expiresAt := 2000000, permissions := [] }

/-- A concrete authenticated state holding the first user's session. -/
def authStateA : AuthState :=
  { isAuthenticated := true, isLoading := false
    user := some userA, session := some sessionA, error := none }

/-- C1: the claim states that `hasRole` returns true iff the required
role equals the user's role or is reachable from it in the hierarchy
closure, and in particular false for the parallel branches Developer vs
Partner. The code instead compares enum positions: for a Developer user
and required role Partner it returns true (index 3 ≤ index 5), even
though Partner is neither equal to nor reachable from Developer. -/
theorem c1_hasRole_index_comparison_bug :
    hasRole Role.developer Role.partner = true ∧
    Role.partner ≠ Role.developer ∧
    ¬ Inherits Role.developer Role.partner :=
  ⟨rfl, by decide, fun h => absurd (inherits_mem _ _ h) (by decide)⟩

/-- C2: the claim states that deleting the last membership leaves the
manager in the terminal no-tenant state and that the current tenant
never references the deleted id after `deleteTenant` returns. In the
code, when the active tenant is the only membership, the cascade guard
`availableTenants.length > 1` fails and nothing clears `currentTenant`:
after the delete the current tenant still references the deleted
tenant while `availableTenants` is empty. -/
theorem c2_deleteTenant_dangling_reference :
    (deleteTenant "tenant-a" lastTenantState).1.currentTenant = some tenantA ∧
    (deleteTenant "tenant-a" lastTenantState).1.availableTenants = [] ∧
    (deleteTenant "tenant-a" lastTenantState).2 = Except.ok () := by
  refine ⟨?_, ?_, ?_⟩ <;> rfl

/-- C3 counterexample: the claim states that `switchTenant` on a
suspended member tenant fails with `TenantInactiveError` and leaves the
current tenant unchanged. In the code there is no status check at all:
switching to a suspended member succeeds and makes it current. -/
theorem c3_switch_to_suspended_succeeds :
    tenantSuspended ∈ suspendedMemberState.availableTenants ∧
    tenantSuspended.status = TenantStatus.suspended ∧
    (switchTenant "tenant-s" suspendedMemberState).2 = Except.ok () ∧
    (switchTenant "tenant-s" suspendedMemberState).1.currentTenant =
      some tenantSuspended := by
  refine ⟨by decide, rfl, ?_, ?_⟩ <;> rfl

/-- C3 amended: `switchTenant` succeeds exactly when the target id is a
membership (invariant I1); the target's status is never consulted, so a
suspended or cancelled member is activated like any other. A non-member
id fails with the error "Tenant not found" and leaves the whole state
unchanged. -/
theorem c3_switchTenant_validates_membership_only (st : TenantState)
    (tenantId : String) :
    ((switchTenant tenantId st).2 = Except.ok () ↔
      ∃ t ∈ st.availableTenants, t.id = tenantId) ∧
    ((∀ t ∈ st.availableTenants, t.id ≠ tenantId) →
      (switchTenant tenantId st).1 = st ∧
      (switchTenant tenantId st).2 = Except.error "Tenant not found") := by
  unfold switchTenant switchTenantOn
  cases hfind : st.availableTenants.find? (fun t => t.id == tenantId) with
  | none =>
    have hnone := List.find?_eq_none.mp hfind
    refine ⟨⟨fun h => Except.noConfusion h, fun h => ?_⟩,
      fun _ => ⟨rfl, rfl⟩⟩
    obtain ⟨t, ht, hid⟩ := h
    exact absurd hid (by simpa using hnone t ht)
  | some t =>
    have hmem := List.mem_of_find?_eq_some hfind
    have hid : t.id = tenantId := by simpa using List.find?_some hfind
    refine ⟨⟨fun _ => ⟨t, hmem, hid⟩, fun _ => rfl⟩, fun hall => ?_⟩
    exact absurd hid (hall t hmem)

/-- C3 witness: switching to a non-member id on a concrete state fails
with "Tenant not found" and leaves the state unchanged. -/
theorem c3_switchTenant_witness :
    (switchTenant "tenant-z" lastTenantState).1 = lastTenantState ∧
    (switchTenant "tenant-z" lastTenantState).2 =
      Except.error "Tenant not found" :=
  (c3_switchTenant_validates_membership_only lastTenantState "tenant-z").2
    (by decide)

/-- C4 counterexample: the claim states that permission resolution for a
role value outside the enumerated Role set fails fast with an
invalid-input error and never returns the empty permission set. The
code's record lookups fall back to the empty list via the JS
expressions with the empty-array defaults, so an unknown role string
resolves, without any error, to the empty permission set. -/
theorem c4_unknown_role_not_an_error :
    roleFromString "superuser" = none ∧
    getUserPermissionsJs "superuser" = [] := by
  refine ⟨?_, ?_⟩ <;> rfl

/-- C4 amended: for every role value outside the enumerated Role set,
`getUserPermissions` silently returns the empty permission set; no
error is raised (the function is total into permission lists). -/
theorem c4_unknown_role_silently_empty (s : String)
    (h : roleFromString s = none) : getUserPermissionsJs s = [] := by
  unfold getUserPermissionsJs
  rw [h]
  rfl

/-- C4 witness: the amended claim evaluated at a concrete out-of-enum
role string. -/
theorem c4_unknown_role_witness : getUserPermissionsJs "badrole" = [] :=
  c4_unknown_role_silently_empty "badrole" (by decide)

/-- C5: the resolved permission set of every role contains its direct
permissions, and every permission granted to a role reachable in the
hierarchy closure (directly or transitively) is also in the resolved
set. -/
theorem c5_resolve_superset_and_inheritance (r : Role) :
    (∀ p ∈ rolePermissions r, p ∈ getUserPermissions r) ∧
    (∀ b : Role, Inherits r b →
      ∀ p ∈ rolePermissions b, p ∈ getUserPermissions r) := by
  constructor
  · cases r <;> decide
  · intro b hib
    exact mem_getUserPermissions_of_edge r b (inherits_mem r b hib)

/-- C5 witness: VIEW_ANALYTICS is granted to Viewer, and Owner, which
inherits from Viewer, resolves to a set containing it. -/
theorem c5_owner_inherits_viewer_witness :
    Permission.viewAnalytics ∈ getUserPermissions Role.owner :=
  (c5_resolve_superset_and_inheritance Role.owner).2 Role.viewer
    (Inherits.direct (by decide)) Permission.viewAnalytics (by decide)

/-- C6 counterexample: the claim states that when bootstrap finds no
persisted token, the resulting state's error field is empty. In the
code the bootstrap dispatches AUTH_FAILURE with the message
"No session found", so the error field is non-empty. -/
theorem c6_bootstrap_error_nonempty :
    (initializeAuth none (fun _ => none) initialState).error =
      some "No session found" ∧
    (initializeAuth none (fun _ => none) initialState).error ≠ none := by
  refine ⟨rfl, ?_⟩
  decide

/-- C6 amended: on bootstrap with no persisted token, or with a token
whose validation fails, the manager enters the unauthenticated shape
(isAuthenticated false, no user, no session) but the error field is set
to a message: "No session found" respectively "Session validation
failed". -/
theorem c6_bootstrap_unauthenticated_with_message
    (vr : String → Option Session) (st : AuthState) :
    (initializeAuth none vr st =
      { st with isAuthenticated := false, isLoading := false
                user := none, session := none
                error := some "No session found" }) ∧
    (∀ t, vr t = none → initializeAuth (some t) vr st =
      { st with isAuthenticated := false, isLoading := false
                user := none, session := none
                error := some "Session validation failed" }) := by
  refine ⟨rfl, fun t h => ?_⟩
  have hred : initializeAuth (some t) vr st =
      match vr t with
      | some session => authReducer st (.authSuccess session.user session)
      | none => authReducer st (.authFailure "Session validation failed") :=
    rfl
  rw [hred, h]
  rfl

/-- C6 witness: the amended claim evaluated at a concrete failing
validator and the initial state. -/
theorem c6_bootstrap_witness :
    initializeAuth (some "tok") (fun _ => none) initialState =
      { initialState with
          isAuthenticated := false
          isLoading := false
          user := none
          session := none
          error := some "Session validation failed" } :=
  (c6_bootstrap_unauthenticated_with_message (fun _ => none)
    initialState).2 "tok" rfl

/-- C7: the scheduled refresh delay equals
max(expiresAt - now - REFRESH_MARGIN, 0) with a 5-minute margin, and for
a session expiring 10 minutes from now the timer fires exactly 5 minutes
from now. -/
theorem c7_refresh_delay_formula (expiresAt now : Int) :
    refreshDelay expiresAt now = max (expiresAt - now - 5 * 60 * 1000) 0 ∧
    refreshDelay (now + 10 * 60 * 1000) now = 5 * 60 * 1000 := by
  constructor
  · rfl
  · show max (now + 10 * 60 * 1000 - now - 5 * 60 * 1000) 0 = 5 * 60 * 1000
    have h : now + 10 * 60 * 1000 - now - 5 * 60 * 1000 = (300000 : Int) := by
      ring
    rw [h]
    norm_num

/-- C8 counterexample: the claim states that a successful refresh
preserves the user's identity. In the code the AUTH_SUCCESS dispatched
by `refreshSession` carries the user of the session returned by the
backend, so when the backend returns a session for a different user the
current user changes. -/
theorem c8_refresh_can_change_user :
    authStateA.user = some userA ∧
    (refreshSession (fun _ => some sessionB) authStateA).user =
      some userB ∧
    (refreshSession (fun _ => some sessionB) authStateA).user ≠
      authStateA.user := by
  refine ⟨rfl, rfl, ?_⟩
  decide

/-- C8 amended: a successful refresh replaces both the session and the
user with the session returned by the refresh backend, re-entering the
authenticated shape with the error cleared; the user is preserved
exactly when the backend returns a session carrying the same user. -/
theorem c8_refresh_replaces_with_backend_session
    (rr : String → Option Session) (st : AuthState) (s0 newSess : Session)
    (hs : st.session = some s0) (hr : rr s0.token = some newSess) :
    refreshSession rr st =
      { st with
          isAuthenticated := true
          isLoading := false
          user := some newSess.user
          session := some newSess
          error := none } := by
  have hred : refreshSession rr st =
      match rr s0.token with
      | some newSession =>
        authReducer st (.authSuccess newSession.user newSession)
      | none => authReducer st (.authFailure "Session refresh failed") := by
    unfold refreshSession
    rw [hs]
  rw [hred, hr]
  rfl

/-- C8 witness: the amended claim evaluated at a concrete authenticated
state and backend result. -/
theorem c8_refresh_witness :
    refreshSession (fun _ => some sessionB) authStateA =
      { authStateA with
          isAuthenticated := true
          isLoading := false
          user := some sessionB.user
          session := some sessionB
          error := none } :=
  c8_refresh_replaces_with_backend_session (fun _ => some sessionB)
    authStateA sessionA sessionB rfl rfl

/-- C9: in every auth state reachable from the initial state through
the reducer dispatches of the public operations, the authenticated flag,
the user and the session are mutually consistent: the flag is set iff a
user is present iff a session is present. -/
theorem c9_auth_state_consistency (s : AuthState) (h : ReachableAuth s) :
    (s.isAuthenticated = true ↔ s.user.isSome = true) ∧
    (s.user.isSome = true ↔ s.session.isSome = true) := by
  induction h with
  | init => constructor <;> simp [initialState]
  | step _ hstep ih =>
    cases hstep with
    | start => simpa [authReducer] using ih
    | success u sess => simp [authReducer]
    | failure msg => simp [authReducer]
    | loggedOut => simp [authReducer]
    | update u hu =>
      obtain ⟨ih1, ih2⟩ := ih
      have husome := Option.ne_none_iff_isSome.mp hu
      constructor
      · simp only [authReducer, Option.isSome_some, iff_true]
        exact ih1.mpr husome
      · simp only [authReducer, Option.isSome_some, true_iff]
        exact ih2.mp husome

/-- C9 witness: the consistency invariant evaluated at the initial
state. -/
theorem c9_consistency_witness :
    (initialState.isAuthenticated = true ↔
      initialState.user.isSome = true) ∧
    (initialState.user.isSome = true ↔
      initialState.session.isSome = true) :=
  c9_auth_state_consistency initialState ReachableAuth.init

/-- C10: a successful `createTenant` appends exactly the tenant returned
by the directory collaborator to the end of `availableTenants` and
leaves the current tenant unchanged; on failure the state is
unchanged. -/
theorem c10_createTenant_appends_without_activating (st : TenantState)
    (result : Except String Tenant) :
    (createTenant result st).1.currentTenant = st.currentTenant ∧
    (∀ t, result = Except.ok t →
      (createTenant result st).1.availableTenants =
        st.availableTenants ++ [t] ∧
      (createTenant result st).2 = Except.ok t) ∧
    (∀ e, result = Except.error e → (createTenant result st).1 = st) := by
  refine ⟨?_, ?_, ?_⟩
  · cases result <;> rfl
  · intro t h
    subst h
    exact ⟨rfl, rfl⟩
  · intro e h
    subst h
    rfl

/-- C10 witness: the frame property evaluated at a concrete state, for
both a successful and a failing directory call. -/
theorem c10_createTenant_witness :
    (createTenant (Except.ok tenantB) lastTenantState).1.availableTenants =
      lastTenantState.availableTenants ++ [tenantB] ∧
    (createTenant (Except.error "boom") lastTenantState).1 =
      lastTenantState :=
  ⟨((c10_createTenant_appends_without_activating lastTenantState
      (Except.ok tenantB)).2.1 tenantB rfl).1,
   (c10_createTenant_appends_without_activating lastTenantState
      (Except.error "boom")).2.2 "boom" rfl⟩

end XRaas
